import Mathlib

/-!
Verification of the `defactosf/nba` batch-fetch utility against its
natural-language specification.

The repository has two client components:
* `sportsblaze_nba_client.py` — a boxscore client that probes an ordered
  list of candidate endpoint paths for a date (`get_daily_boxscores`) and
  batches that fetch over a calendar date range
  (`get_date_range_boxscores`);
* `scraper.py` / `fetch_player_stats.py` — stats-provider operations that
  call a fixed API, save the result to JSON/CSV (`_save_data`), and a CLI
  entry point (`main`).

The network is modelled by an oracle mapping an endpoint path to the
outcome of one HTTP GET (the behaviour of `requests` plus
`raise_for_status` in `_make_request`).  Dates are modelled by their epoch
day number: `datetime.strptime` / `+ timedelta(days=1)` / `<=` become a
`Nat`, successor and `≤`; `strftime("%Y-%m-%d")` becomes an abstract
rendering function `Nat → String`.  Control flow that raises/catches
exceptions becomes `Except`; functions that write files additionally
return the list of writes they performed.
-/

/-- Body of a successfully parsed 2xx response (`response.json()`); the
provider schema is opaque, so the payload is kept as an uninterpreted
string. -/
abbrev RawResponse := String

/-- Outcome of one HTTP GET against one endpoint path, as observed by
`_make_request`: a 2xx with a parsed body, an HTTP error status raised by
`raise_for_status`, or a transport-level failure (timeout, connection
error — a `RequestException` that is not an `HTTPError`). -/
inductive HttpOutcome where
  | success (body : RawResponse)
  | httpError (status : Nat)
  | transportError
deriving DecidableEq, Repr

/-- The network, as seen by the client: each endpoint path deterministically
produces one `HttpOutcome` for the duration of a run. -/
abbrev Oracle := String → HttpOutcome

/-- Errors that escape `get_daily_boxscores` for one date:
`requestFailed` models the re-raised non-404 `HTTPError` or the propagated
transport failure (the spec taxonomy calls both `RequestFailed`);
`noValidEndpoint` models the final
`raise Exception("Could not find valid endpoint ...")` after every
candidate returned 404 (the spec taxonomy calls it `NoValidEndpoint`). -/
inductive FetchError where
  | requestFailed (underlying : HttpOutcome)
  | noValidEndpoint
deriving DecidableEq, Repr

/-- The ordered candidate endpoint list of `get_daily_boxscores`
(`endpoints_to_try` in the source). -/
def endpoints_to_try (date : String) : List String :=
  ["boxscores/daily/" ++ date ++ ".json",
   "games/daily/" ++ date ++ ".json",
   "schedule/daily/" ++ date ++ ".json"]

/-- The candidate loop of `get_daily_boxscores`: try each endpoint in
order; a 2xx returns its body, a 404 continues with the next candidate,
any other `HTTPError` is re-raised (and a transport failure propagates
uncaught); an exhausted list raises the no-valid-endpoint error.  The
second component records the endpoints actually requested, in order. -/
def tryEndpoints (oracle : Oracle) :
    List String → Except FetchError RawResponse × List String
  | [] => (Except.error FetchError.noValidEndpoint, [])
  | e :: rest =>
    match oracle e with
    | HttpOutcome.success body => (Except.ok body, [e])
    | HttpOutcome.httpError status =>
      if status = 404 then
        ((tryEndpoints oracle rest).1, e :: (tryEndpoints oracle rest).2)
      else
        (Except.error (FetchError.requestFailed (HttpOutcome.httpError status)), [e])
    | HttpOutcome.transportError =>
      (Except.error (FetchError.requestFailed HttpOutcome.transportError), [e])

/-- `get_daily_boxscores(date)`: run the candidate loop over
`endpoints_to_try`.  Result is the fetch outcome together with the trace
of requested endpoints. -/
def get_daily_boxscores (oracle : Oracle) (date : String) :
    Except FetchError RawResponse × List String :=
  tryEndpoints oracle (endpoints_to_try date)

/-- The `while current <= end` loop of `get_date_range_boxscores`, over
epoch-day numbers.  `fmt` renders a day number as its `YYYY-MM-DD` string
(`strftime`).  For each day the single-date fetch is invoked; on success
`(date, data)` is appended to the results; on any exception the error is
only printed and nothing is appended.  The second component records every
date for which the single-date fetch was attempted, in loop order. -/
def rangeLoop (oracle : Oracle) (fmt : Nat → String) (current finish : Nat) :
    List (String × RawResponse) × List String :=
  if _h : current ≤ finish then
    let date_str := fmt current
    let rest := rangeLoop oracle fmt (current + 1) finish
    match (get_daily_boxscores oracle date_str).1 with
    | Except.ok data => ((date_str, data) :: rest.1, date_str :: rest.2)
    | Except.error _ => (rest.1, date_str :: rest.2)
  else
    ([], [])
termination_by finish + 1 - current

/-- `get_date_range_boxscores(start_date, end_date)` after `strptime` has
parsed both dates: iterate days from `start_day` to `end_day` inclusive,
collecting the per-day results and the attempted dates. -/
def get_date_range_boxscores (oracle : Oracle) (fmt : Nat → String)
    (start_day end_day : Nat) :
    List (String × RawResponse) × List String :=
  rangeLoop oracle fmt start_day end_day

theorem rangeLoop_stop (oracle : Oracle) (fmt : Nat → String)
    {current finish : Nat} (h : finish < current) :
    rangeLoop oracle fmt current finish = ([], []) := by
  rw [rangeLoop]
  simp [Nat.not_le.mpr h]

theorem rangeLoop_step (oracle : Oracle) (fmt : Nat → String)
    {current finish : Nat} (h : current ≤ finish) :
    rangeLoop oracle fmt current finish =
      (match (get_daily_boxscores oracle (fmt current)).1 with
       | Except.ok data =>
           ((fmt current, data) :: (rangeLoop oracle fmt (current + 1) finish).1,
            fmt current :: (rangeLoop oracle fmt (current + 1) finish).2)
       | Except.error _ =>
           ((rangeLoop oracle fmt (current + 1) finish).1,
            fmt current :: (rangeLoop oracle fmt (current + 1) finish).2)) := by
  rw [rangeLoop]
  simp [h]

/-- The trace of attempted dates is exactly the rendered days of the
closed interval, independent of the oracle. -/
theorem rangeLoop_attempted (oracle : Oracle) (fmt : Nat → String)
    (finish : Nat) :
    ∀ n current, finish + 1 - current = n →
      (rangeLoop oracle fmt current finish).2 =
        (List.range' current n).map fmt := by
  intro n
  induction n with
  | zero =>
    intro current h
    have hlt : finish < current := by omega
    rw [rangeLoop_stop oracle fmt hlt]
    simp
  | succ n ih =>
    intro current h
    have hle : current ≤ finish := by omega
    rw [rangeLoop_step oracle fmt hle, List.range'_succ]
    have hrec := ih (current + 1) (by omega)
    cases hres : (get_daily_boxscores oracle (fmt current)).1 with
    | ok data => simpa [hres] using congrArg (fmt current :: ·) hrec
    | error e => simpa [hres] using congrArg (fmt current :: ·) hrec

/-- The results list is exactly the successful days of the closed
interval, in ascending day order, each paired with its fetched body;
failed days are omitted. -/
theorem rangeLoop_results (oracle : Oracle) (fmt : Nat → String)
    (finish : Nat) :
    ∀ n current, finish + 1 - current = n →
      (rangeLoop oracle fmt current finish).1 =
        (List.range' current n).filterMap (fun d =>
          match (get_daily_boxscores oracle (fmt d)).1 with
          | Except.ok body => some (fmt d, body)
          | Except.error _ => none) := by
  intro n
  induction n with
  | zero =>
    intro current h
    have hlt : finish < current := by omega
    rw [rangeLoop_stop oracle fmt hlt]
    simp
  | succ n ih =>
    intro current h
    have hle : current ≤ finish := by omega
    rw [rangeLoop_step oracle fmt hle, List.range'_succ]
    have hrec := ih (current + 1) (by omega)
    cases hres : (get_daily_boxscores oracle (fmt current)).1 with
    | ok data => simp [hres, hrec]
    | error e => simp [hres, hrec]

/-- An oracle on which every endpoint returns HTTP 404, so every
single-date fetch fails with `noValidEndpoint`. -/
def oracleAll404 : Oracle := fun _ => HttpOutcome.httpError 404

/-- A concrete rendering of a day number as a date string, standing in
for `strftime` in closed witness statements. -/
def natDate (d : Nat) : String := "day-" ++ toString d

/-- C1 counterexample: on the one-day range `[0, 0]` under an oracle
where every candidate endpoint returns 404, `get_date_range_boxscores`
returns the empty list — not, as the claim states, `(0 - 0) + 1 = 1`
entries with the failed date present as a `(date, error)` entry.  The
failed date is omitted from the result. -/
theorem range_failed_day_omitted :
    (get_date_range_boxscores oracleAll404 natDate 0 0).1 = [] ∧
    (get_date_range_boxscores oracleAll404 natDate 0 0).1.length ≠ 1 := by
  have h : (get_date_range_boxscores oracleAll404 natDate 0 0).1 = [] := by
    rw [get_date_range_boxscores,
      rangeLoop_results oracleAll404 natDate 0 1 0 rfl]
    rfl
  exact ⟨h, by rw [h]; decide⟩

/-- C1 amended: the date-range fetch returns exactly one `(date, data)`
entry per calendar day in `[start_day, end_day]` whose single-date fetch
succeeds, in ascending date order; a day whose fetch fails is logged and
omitted (so when every day succeeds there are exactly
`end_day - start_day + 1` entries). -/
theorem range_results_are_successes (oracle : Oracle) (fmt : Nat → String)
    (start_day end_day : Nat) :
    (get_date_range_boxscores oracle fmt start_day end_day).1 =
      (List.range' start_day (end_day + 1 - start_day)).filterMap (fun d =>
        match (get_daily_boxscores oracle (fmt d)).1 with
        | Except.ok body => some (fmt d, body)
        | Except.error _ => none) := by
  rw [get_date_range_boxscores,
    rangeLoop_results oracle fmt end_day (end_day + 1 - start_day) start_day rfl]

/-- C2: for every oracle (hence every pattern of per-date outcomes,
failures included) the single-date fetch is attempted for every calendar
day of `[start_day, end_day]`, in ascending order: the attempted-date
trace equals the full interval and does not depend on the oracle at all,
so one date's failure never prevents any later date's fetch. -/
theorem range_attempts_every_day (oracle : Oracle) (fmt : Nat → String)
    (start_day end_day : Nat) :
    (get_date_range_boxscores oracle fmt start_day end_day).2 =
      (List.range' start_day (end_day + 1 - start_day)).map fmt := by
  rw [get_date_range_boxscores,
    rangeLoop_attempted oracle fmt end_day (end_day + 1 - start_day) start_day rfl]

/-- C3: if the first candidate endpoint returns 404 and the second
returns a 2xx with body `body`, then `get_daily_boxscores` returns
`body` and the requested-endpoint trace is exactly the first two
candidates — the third candidate is never requested. -/
theorem daily_404_then_2xx (oracle : Oracle) (date : String)
    (body : RawResponse)
    (h1 : oracle ("boxscores/daily/" ++ date ++ ".json") =
      HttpOutcome.httpError 404)
    (h2 : oracle ("games/daily/" ++ date ++ ".json") =
      HttpOutcome.success body) :
    get_daily_boxscores oracle date =
      (Except.ok body,
       ["boxscores/daily/" ++ date ++ ".json",
        "games/daily/" ++ date ++ ".json"]) := by
  simp [get_daily_boxscores, endpoints_to_try, tryEndpoints, h1, h2]

/-- Concrete network for the C3 witness: the second candidate for
2024-10-30 succeeds, everything else is 404. -/
def oracle404then2xx : Oracle := fun e =>
  if e = "games/daily/2024-10-30.json" then HttpOutcome.success "boxes"
  else HttpOutcome.httpError 404

theorem daily_404_then_2xx_witness :
    get_daily_boxscores oracle404then2xx "2024-10-30" =
      (Except.ok "boxes",
       ["boxscores/daily/2024-10-30.json", "games/daily/2024-10-30.json"]) :=
  daily_404_then_2xx oracle404then2xx "2024-10-30" "boxes"
    (by decide) (by decide)

/-- C4: a non-404 HTTP error status, or a transport failure, from the
first candidate endpoint is surfaced immediately as `requestFailed`
carrying the underlying outcome, and the trace shows no later candidate
was requested. -/
theorem daily_non404_aborts (oracle : Oracle) (date : String)
    (status : Nat) (hs : status ≠ 404) :
    (oracle ("boxscores/daily/" ++ date ++ ".json") =
        HttpOutcome.httpError status →
      get_daily_boxscores oracle date =
        (Except.error (FetchError.requestFailed (HttpOutcome.httpError status)),
         ["boxscores/daily/" ++ date ++ ".json"])) ∧
    (oracle ("boxscores/daily/" ++ date ++ ".json") =
        HttpOutcome.transportError →
      get_daily_boxscores oracle date =
        (Except.error (FetchError.requestFailed HttpOutcome.transportError),
         ["boxscores/daily/" ++ date ++ ".json"])) := by
  constructor
  · intro h1
    simp [get_daily_boxscores, endpoints_to_try, tryEndpoints, h1, hs]
  · intro h1
    simp [get_daily_boxscores, endpoints_to_try, tryEndpoints, h1]

/-- Network for the C4 witness: every endpoint answers HTTP 500. -/
def oracleAll500 : Oracle := fun _ => HttpOutcome.httpError 500

theorem daily_non404_aborts_witness :
    get_daily_boxscores oracleAll500 "2024-10-30" =
      (Except.error (FetchError.requestFailed (HttpOutcome.httpError 500)),
       ["boxscores/daily/2024-10-30.json"]) :=
  (daily_non404_aborts oracleAll500 "2024-10-30" 500 (by decide)).1 rfl

/-- C5: when every candidate endpoint returns HTTP 404, the single-date
fetch fails with `noValidEndpoint`, after having requested all three
candidates in order. -/
theorem daily_all_404_no_valid_endpoint (oracle : Oracle) (date : String)
    (h1 : oracle ("boxscores/daily/" ++ date ++ ".json") =
      HttpOutcome.httpError 404)
    (h2 : oracle ("games/daily/" ++ date ++ ".json") =
      HttpOutcome.httpError 404)
    (h3 : oracle ("schedule/daily/" ++ date ++ ".json") =
      HttpOutcome.httpError 404) :
    get_daily_boxscores oracle date =
      (Except.error FetchError.noValidEndpoint,
       ["boxscores/daily/" ++ date ++ ".json",
        "games/daily/" ++ date ++ ".json",
        "schedule/daily/" ++ date ++ ".json"]) := by
  simp [get_daily_boxscores, endpoints_to_try, tryEndpoints, h1, h2, h3]

theorem daily_all_404_witness :
    get_daily_boxscores oracleAll404 "2024-10-30" =
      (Except.error FetchError.noValidEndpoint,
       ["boxscores/daily/2024-10-30.json",
        "games/daily/2024-10-30.json",
        "schedule/daily/2024-10-30.json"]) :=
  daily_all_404_no_valid_endpoint oracleAll404 "2024-10-30" rfl rfl rfl

/-- C10: when the parsed start day is strictly after the parsed end day,
the range loop body never runs: no single-date fetch is attempted and the
result is the empty sequence, with no error raised. -/
theorem range_empty_when_start_after_end (oracle : Oracle)
    (fmt : Nat → String) (start_day end_day : Nat)
    (h : end_day < start_day) :
    get_date_range_boxscores oracle fmt start_day end_day = ([], []) := by
  rw [get_date_range_boxscores]
  exact rangeLoop_stop oracle fmt h

theorem range_empty_when_start_after_end_witness :
    get_date_range_boxscores oracleAll500 natDate 5 3 = ([], []) :=
  range_empty_when_start_after_end oracleAll500 natDate 5 3 (by decide)

/-- A row of a tabular record set: named columns to raw cell values. -/
abbrev Row := List (String × String)

/-- A tabular record set (the DataFrame returned by an endpoint's
`get_data_frames()[0]`). -/
abbrev Table := List Row

/-- A Python exception value as far as the scraper observes it:
`requestError` stands for any network/HTTP failure raised by the
`nba_api` endpoint call, `valueError msg` for the `ValueError` raised by
`_save_data` on an unknown format. -/
inductive PyError where
  | requestError
  | valueError (msg : String)
deriving DecidableEq, Repr

/-- The outcome of one underlying stats-provider API call
(`get_data_frames()[0]` either yields a table or the call raises). -/
abbrev ApiResult := Except PyError Table

/-- `_save_data(df, filename, output_format)` of `scraper.py`: write the
table as `<filename>.json` or `<filename>.csv`, or raise
`ValueError("Unsupported format: ...")` for any other format value.  The
second component records the file writes performed (path paired with the
table written); the unsupported-format branch raises before any write. -/
def save_data (df : Table) (filename : String) (output_format : String) :
    Except PyError Unit × List (String × Table) :=
  if output_format = "json" then
    (Except.ok (), [(filename ++ ".json", df)])
  else if output_format = "csv" then
    (Except.ok (), [(filename ++ ".csv", df)])
  else
    (Except.error (PyError.valueError ("Unsupported format: " ++ output_format)), [])

/-- `NbaScraper.scrape_games`: call the game-finder endpoint, optionally
filter by team abbreviation, save, and return the table; any exception
raised inside the `try` (the API call as well as `_save_data`) is caught,
printed, and turned into a `None` return.  The result is the value the
function call yields to its caller — `Except.ok` meaning a normal return
(no exception escapes), `none` the Python `None` — plus the writes. -/
def scrape_games (apiResult : ApiResult) (team_abbr : Option String)
    (season : String) (output_format : String) :
    Except PyError (Option Table) × List (String × Table) :=
  match apiResult with
  | Except.error _ => (Except.ok none, [])
  | Except.ok games_df =>
    let df := match team_abbr with
      | some abbr => games_df.filter
          (fun r => r.lookup "TEAM_ABBREVIATION" == some abbr)
      | none => games_df
    let filename := match team_abbr with
      | some abbr => "games_" ++ season ++ "_" ++ abbr
      | none => "games_" ++ season
    match save_data df filename output_format with
    | (Except.error _, w) => (Except.ok none, w)
    | (Except.ok _, w) => (Except.ok (some df), w)

/-- `NbaScraper.scrape_players`: same try/except shape as `scrape_games`
without the team filter. -/
def scrape_players (apiResult : ApiResult) (season : String)
    (output_format : String) :
    Except PyError (Option Table) × List (String × Table) :=
  match apiResult with
  | Except.error _ => (Except.ok none, [])
  | Except.ok players_df =>
    match save_data players_df ("players_" ++ season) output_format with
    | (Except.error _, w) => (Except.ok none, w)
    | (Except.ok _, w) => (Except.ok (some players_df), w)

/-- `NbaScraper.scrape_player_stats`: player game log for one player id;
same try/except shape. -/
def scrape_player_stats (apiResult : ApiResult) (player_id : Int)
    (season : String) (output_format : String) :
    Except PyError (Option Table) × List (String × Table) :=
  match apiResult with
  | Except.error _ => (Except.ok none, [])
  | Except.ok stats_df =>
    match save_data stats_df
        ("player_" ++ toString player_id ++ "_" ++ season) output_format with
    | (Except.error _, w) => (Except.ok none, w)
    | (Except.ok _, w) => (Except.ok (some stats_df), w)

/-- `NbaScraper.scrape_team_stats`: team game log for one team id; same
try/except shape. -/
def scrape_team_stats (apiResult : ApiResult) (team_id : Int)
    (season : String) (output_format : String) :
    Except PyError (Option Table) × List (String × Table) :=
  match apiResult with
  | Except.error _ => (Except.ok none, [])
  | Except.ok stats_df =>
    match save_data stats_df
        ("team_" ++ toString team_id ++ "_" ++ season) output_format with
    | (Except.error _, w) => (Except.ok none, w)
    | (Except.ok _, w) => (Except.ok (some stats_df), w)

/-- `NbaScraper.scrape_standings`: league standings; same try/except
shape. -/
def scrape_standings (apiResult : ApiResult) (season : String)
    (output_format : String) :
    Except PyError (Option Table) × List (String × Table) :=
  match apiResult with
  | Except.error _ => (Except.ok none, [])
  | Except.ok standings_df =>
    match save_data standings_df ("standings_" ++ season) output_format with
    | (Except.error _, w) => (Except.ok none, w)
    | (Except.ok _, w) => (Except.ok (some standings_df), w)

/-- C6 counterexample: when the underlying API call fails, `scrape_games`
returns normally with `None` (`Except.ok none`) and performs no write —
the error is caught and printed, not surfaced to the caller as a
`ProviderError`, contradicting the claim that a failed call is
propagated. -/
theorem scrape_games_swallows_error :
    scrape_games (Except.error PyError.requestError) none "2023-24" "json" =
      (Except.ok none, []) := rfl

/-- C6 amended: for every stats-provider operation, a failed underlying
API call is caught inside the operation: the error is printed and the
operation returns `None` to its caller with no file written; no retry is
performed (the single call's failure decides the outcome) and no
exception propagates. -/
theorem scrape_ops_catch_api_error (err : PyError) (team_abbr : Option String)
    (season output_format : String) (player_id team_id : Int) :
    scrape_games (Except.error err) team_abbr season output_format =
      (Except.ok none, []) ∧
    scrape_players (Except.error err) season output_format =
      (Except.ok none, []) ∧
    scrape_player_stats (Except.error err) player_id season output_format =
      (Except.ok none, []) ∧
    scrape_team_stats (Except.error err) team_id season output_format =
      (Except.ok none, []) ∧
    scrape_standings (Except.error err) season output_format =
      (Except.ok none, []) :=
  ⟨rfl, rfl, rfl, rfl, rfl⟩

/-- C8: `_save_data` with a format other than `"json"` or `"csv"` raises
the unsupported-format `ValueError` to its caller and writes no file;
with `"json"` or `"csv"` it raises no error and writes exactly one file. -/
theorem save_data_format_dispatch (df : Table) (filename : String)
    (output_format : String) :
    (output_format ≠ "json" → output_format ≠ "csv" →
      save_data df filename output_format =
        (Except.error
          (PyError.valueError ("Unsupported format: " ++ output_format)), [])) ∧
    (save_data df filename "json" =
      (Except.ok (), [(filename ++ ".json", df)])) ∧
    (save_data df filename "csv" =
      (Except.ok (), [(filename ++ ".csv", df)])) := by
  refine ⟨fun h1 h2 => ?_, rfl, rfl⟩
  simp [save_data, h1, h2]

theorem save_data_format_dispatch_witness :
    save_data [] "games_2023-24" "xml" =
      (Except.error (PyError.valueError "Unsupported format: xml"), []) :=
  (save_data_format_dispatch [] "games_2023-24" "xml").1
    (by decide) (by decide)

/-- The subcommand passed to `scraper.py main` (argparse restricts
`command` to these choices before the dispatch runs). -/
inductive Command where
  | games
  | players
  | playerStats
  | teamStats
  | standings
  | listTeams
  | searchPlayer
deriving DecidableEq, Repr

/-- The parsed argparse namespace, with the fields the dispatch in `main`
reads.  Optional flags that were not passed are `none`. -/
structure Args where
  command : Command
  season : String
  team_abbr : Option String
  team_id : Option Int
  player_id : Option Int
  player_name : Option String
  format : String

/-- Python truthiness of an optional int flag: `not args.x` is taken when
the flag is absent (`None`) or equal to `0`. -/
def optIntTruthy : Option Int → Bool
  | none => false
  | some n => n != 0

/-- Python truthiness of an optional string flag: `not args.x` is taken
when the flag is absent (`None`) or the empty string. -/
def optStrTruthy : Option String → Bool
  | none => false
  | some s => s != ""

/-- Process exit status after `main` evaluated an expression: 1 when an
exception escaped (Python aborts with a traceback), 0 when the value was
returned normally. -/
def exitOf : Except PyError (Option Table) → Nat
  | Except.error _ => 1
  | Except.ok _ => 0

/-- The dispatch of `scraper.py main` after argparse succeeded:
`player-stats`, `team-stats` and `search-player` guard their required
flag with a Python truthiness test (`if not args.player_id`, …) and call
`sys.exit(1)` when it fails; every other path runs its scrape call and
falls off the end of `main` (exit 0, or 1 if an exception escaped the
call).  `apiResult` is the outcome of whichever provider call the chosen
subcommand makes.  Returns the exit code and the file writes. -/
def cli_main (args : Args) (apiResult : ApiResult) :
    Nat × List (String × Table) :=
  match args.command with
  | Command.games =>
    let r := scrape_games apiResult args.team_abbr args.season args.format
    (exitOf r.1, r.2)
  | Command.players =>
    let r := scrape_players apiResult args.season args.format
    (exitOf r.1, r.2)
  | Command.playerStats =>
    if optIntTruthy args.player_id then
      let r := scrape_player_stats apiResult (args.player_id.getD 0)
        args.season args.format
      (exitOf r.1, r.2)
    else
      (1, [])
  | Command.teamStats =>
    if optIntTruthy args.team_id then
      let r := scrape_team_stats apiResult (args.team_id.getD 0)
        args.season args.format
      (exitOf r.1, r.2)
    else
      (1, [])
  | Command.standings =>
    let r := scrape_standings apiResult args.season args.format
    (exitOf r.1, r.2)
  | Command.listTeams => (0, [])
  | Command.searchPlayer =>
    if optStrTruthy args.player_name then (0, [])
    else (1, [])

theorem exitOf_scrape_games (apiResult : ApiResult) (team_abbr : Option String)
    (season output_format : String) :
    exitOf (scrape_games apiResult team_abbr season output_format).1 = 0 := by
  cases apiResult with
  | error e => rfl
  | ok df =>
    by_cases h1 : output_format = "json"
    · cases team_abbr <;> simp [scrape_games, save_data, h1, exitOf]
    · by_cases h2 : output_format = "csv" <;> cases team_abbr <;>
        simp [scrape_games, save_data, h1, h2, exitOf]

theorem exitOf_scrape_players (apiResult : ApiResult)
    (season output_format : String) :
    exitOf (scrape_players apiResult season output_format).1 = 0 := by
  cases apiResult with
  | error e => rfl
  | ok df =>
    by_cases h1 : output_format = "json"
    · simp [scrape_players, save_data, h1, exitOf]
    · by_cases h2 : output_format = "csv" <;>
        simp [scrape_players, save_data, h1, h2, exitOf]

theorem exitOf_scrape_player_stats (apiResult : ApiResult) (player_id : Int)
    (season output_format : String) :
    exitOf (scrape_player_stats apiResult player_id season output_format).1 = 0 := by
  cases apiResult with
  | error e => rfl
  | ok df =>
    by_cases h1 : output_format = "json"
    · simp [scrape_player_stats, save_data, h1, exitOf]
    · by_cases h2 : output_format = "csv" <;>
        simp [scrape_player_stats, save_data, h1, h2, exitOf]

theorem exitOf_scrape_team_stats (apiResult : ApiResult) (team_id : Int)
    (season output_format : String) :
    exitOf (scrape_team_stats apiResult team_id season output_format).1 = 0 := by
  cases apiResult with
  | error e => rfl
  | ok df =>
    by_cases h1 : output_format = "json"
    · simp [scrape_team_stats, save_data, h1, exitOf]
    · by_cases h2 : output_format = "csv" <;>
        simp [scrape_team_stats, save_data, h1, h2, exitOf]

theorem exitOf_scrape_standings (apiResult : ApiResult)
    (season output_format : String) :
    exitOf (scrape_standings apiResult season output_format).1 = 0 := by
  cases apiResult with
  | error e => rfl
  | ok df =>
    by_cases h1 : output_format = "json"
    · simp [scrape_standings, save_data, h1, exitOf]
    · by_cases h2 : output_format = "csv" <;>
        simp [scrape_standings, save_data, h1, h2, exitOf]

/-- The invocation `player-stats --player-id 0`: the required flag is
present, with integer value 0. -/
def argsPlayerIdZero : Args :=
  { command := Command.playerStats, season := "2023-24", team_abbr := none,
    team_id := none, player_id := some 0, player_name := none,
    format := "json" }

/-- C9 counterexample: invoking `player-stats` WITH its required
argument, as `--player-id 0`, exits with code 1 — the guard is the Python
truthiness test `if not args.player_id`, which treats the integer 0 like
a missing flag — where the claim requires exit code 0 whenever the
required argument is supplied. -/
theorem cli_player_id_zero_exits_one :
    (cli_main argsPlayerIdZero (Except.ok [])).1 = 1 := rfl

/-- C9 amended: the CLI exits 1 exactly when the gated subcommand's
required flag is missing or Python-falsy (`--player-id` / `--team-id`
absent or 0, `--player-name` absent or empty); every other invocation
exits 0, independently of the provider-call outcome — in particular a
per-item fetch failure, which the scrape operations recover by returning
`None`, still exits 0. -/
theorem cli_exit_codes (args : Args) (apiResult : ApiResult) :
    (cli_main args apiResult).1 =
      (match args.command with
       | Command.playerStats => if optIntTruthy args.player_id then 0 else 1
       | Command.teamStats => if optIntTruthy args.team_id then 0 else 1
       | Command.searchPlayer => if optStrTruthy args.player_name then 0 else 1
       | _ => 0) := by
  cases hc : args.command with
  | games => simp [cli_main, hc, exitOf_scrape_games]
  | players => simp [cli_main, hc, exitOf_scrape_players]
  | playerStats =>
    by_cases hp : optIntTruthy args.player_id <;>
      simp [cli_main, hc, hp, exitOf_scrape_player_stats]
  | teamStats =>
    by_cases ht : optIntTruthy args.team_id <;>
      simp [cli_main, hc, ht, exitOf_scrape_team_stats]
  | standings => simp [cli_main, hc, exitOf_scrape_standings]
  | listTeams => simp [cli_main, hc]
  | searchPlayer =>
    by_cases hn : optStrTruthy args.player_name <;>
      simp [cli_main, hc, hn]
